import Mathlib

/-!
Shallow embedding of the lightagent (robotape) tape-structured execution
engine: the Tape/Step data model (src/lightagent/tape.py), the tool
pipeline (src/lightagent/tools.py) and the agent step dispatcher
(src/lightagent/agents/base.py), together with theorems settling the
frozen claims about the repository.

Conventions of the embedding:
- Python dictionaries are insertion-ordered association lists.
- uuid4 identifier generation is modelled by an explicit supply of natural
  numbers (UuidGen); the global-uniqueness property of uuid4 becomes the
  invariant that every previously issued identifier is below the counter.
- Wall-clock timestamps are modelled as a constant, they play no role in
  any claim.
- Mutation of Python objects is modelled by explicit state passing.
- A raised Python exception is an (Except PyErr _) error value carrying
  the exception class name and the str(e) message.
-/

namespace LightAgent

/-- A raised Python exception: the class name (type(e).__name__) and the
str(e) message. -/
structure PyErr where
  kind : String
  msg : String
deriving DecidableEq, Repr

/-- JSON-like Python values: step contents, tool arguments and results.
Python dicts are insertion-ordered association lists. -/
inductive Value where
  | null
  | str (s : String)
  | int (n : Int)
  | bool (b : Bool)
  | list (xs : List Value)
  | dict (kvs : List (String × Value))

/-- Explicit supply of fresh identifiers modelling the uuid4 generator:
issues the counter value and bumps the counter.  Global uniqueness of
uuid4 corresponds to the invariant that every identifier issued earlier
is strictly below the counter. -/
structure UuidGen where
  counter : Nat
deriving DecidableEq, Repr

/-- Draw a fresh identifier from the supply. -/
def UuidGen.next (g : UuidGen) : Nat × UuidGen :=
  (g.counter, ⟨g.counter + 1⟩)

/-! ## tape.py: the Tape/Step data model -/

/-- tape.py StepType: a str-valued enum with the three fixed members. -/
inductive StepType where
  | thought
  | action
  | observation
deriving DecidableEq, Repr

/-- The string value of the str-enum member (StepType is a str Enum, so
equality comparisons in the source compare these values). -/
def StepType.value : StepType → String
  | .thought => "thought"
  | .action => "action"
  | .observation => "observation"

/-- tape.py StepMetadata (with the BaseMetadata fields id/timestamp from
models/base.py; timestamps are modelled as a constant 0). -/
structure StepMetadata where
  agent : String
  node : String
  prompt_id : Option String := Option.none
  timestamp : Nat := 0
  id : Nat := 0
deriving DecidableEq, Repr

/-- tape.py Step. The step_id uuid4 default is modelled as a plain field
(no claim depends on step identifiers). -/
structure Step where
  type : StepType
  content : Value
  metadata : StepMetadata
  step_id : Nat := 0

/-- tape.py TapeMetadata. created_at (a wall-clock timestamp) is modelled
as a constant 0; tape_id is drawn from the uuid supply by the caller. -/
structure TapeMetadata where
  author : String
  parent_id : Option Nat := Option.none
  created_at : Nat := 0
  tape_id : Nat := 0
deriving DecidableEq, Repr

/-- tape.py Tape: an ordered list of steps plus tape metadata. -/
structure Tape where
  steps : List Step := []
  metadata : TapeMetadata := { author := "root" }

/-- tape.py Tape.append: self.steps.append(step).  The logger.debug calls
around the append are pure I/O and are not modelled. -/
def Tape.append (t : Tape) (s : Step) : Tape :=
  { t with steps := t.steps ++ [s] }

/-- A sequence of Tape.append calls, in call order. -/
def Tape.appendAll (t : Tape) (ss : List Step) : Tape :=
  ss.foldl Tape.append t

/-- tape.py Tape.get_steps_by_type: the ordered subsequence of steps of
the given type. -/
def Tape.get_steps_by_type (t : Tape) (ty : StepType) : List Step :=
  t.steps.filter (fun s => s.type = ty)

/-- tape.py Tape.get_steps_by_agent. -/
def Tape.get_steps_by_agent (t : Tape) (agent_name : String) : List Step :=
  t.steps.filter (fun s => s.metadata.agent = agent_name)

/-- tape.py Tape.get_last_step: None on an empty tape, else steps[-1]. -/
def Tape.get_last_step (t : Tape) : Option Step :=
  t.steps.getLast?

/-- tape.py Tape.clone: a new Tape built from steps.copy() (a new list
with the same elements) and fresh TapeMetadata whose author is inherited,
whose parent_id is the source tape_id, and whose tape_id is drawn from
the uuid4 supply (the default factory of TapeMetadata.tape_id).  The
source tape value is not modified: clone only reads it. -/
def Tape.clone (t : Tape) (g : UuidGen) : Tape × UuidGen :=
  let (newId, g2) := g.next
  ({ steps := t.steps,
     metadata := { author := t.metadata.author,
                   parent_id := some t.metadata.tape_id,
                   tape_id := newId } }, g2)

/-! ## tools.py: the tool pipeline -/

/-- The type expression attached to a tool-callable parameter, as seen by
inspect.signature / typing.get_type_hints.  runContextOf models a
subscripted generic alias RunContext[T] (a typing object, not a class);
runContextSub models a proper subclass of RunContext; strT, intT, boolT,
optionalInt and dictStrAny are the concrete parameter types used by this
repository and its tests. -/
inductive PyAnnot where
  | empty
  | runContext
  | runContextOf (arg : String)
  | runContextSub (sub : String)
  | strT
  | intT
  | boolT
  | optionalInt
  | dictStrAny
deriving DecidableEq, Repr

/-- CPython issubclass(ann, RunContext) on a first-parameter type: true
for the RunContext class and its subclasses, false for other classes, and
a raised TypeError for a subscripted generic alias such as
RunContext[str], which is not a class (verified on CPython 3.11).  The
empty case never reaches issubclass in the source, which short-circuits
on a missing type first. -/
def PyAnnot.issubclassOfRunContext : PyAnnot → Except PyErr Bool
  | .runContext => .ok true
  | .runContextSub _ => .ok true
  | .runContextOf _ =>
      .error { kind := "TypeError", msg := "issubclass() arg 1 must be a class" }
  | _ => .ok false

/-- A declared parameter of a tool callable. -/
structure Param where
  name : String
  annot : PyAnnot
  hasDefault : Bool := false
deriving DecidableEq, Repr

/-- A positional argument of a Python call: the RunContext object or a
plain value. -/
inductive CallArg where
  | ctx
  | val (v : Value)

/-- A Python callable as the tool pipeline sees it: its introspectable
declaration (name, docstring, parameters, coroutine-ness) plus the
behavior of its body.  The body receives the number of completed prior
invocations — modelling any state the callable closes over, such as the
nonlocal attempt counter of the tests — and the bound positional
arguments, and produces a return value or a raised exception. -/
structure PyCallable where
  pyName : String
  doc : String := ""
  params : List Param
  isAsync : Bool := false
  body : Nat → List CallArg → Except PyErr Value

/-- Python positional-call semantics: binding the supplied positional
arguments against the declared parameters raises TypeError when a
parameter without a default is left unbound — the message names the
missing parameters (CPython additionally wraps each name in quote marks)
— or when more arguments than parameters are supplied; otherwise the body
runs.  On a binding error the body does not run, so the prior-invocation
count is unchanged by such a call. -/
def PyCallable.call (f : PyCallable) (prior : Nat) (args : List CallArg) :
    Except PyErr Value :=
  let missing := (f.params.drop args.length).filter (fun p => !p.hasDefault)
  if missing.isEmpty then
    if args.length ≤ f.params.length then
      f.body prior args
    else
      .error { kind := "TypeError",
               msg := f.pyName ++ "() takes " ++ toString f.params.length
                 ++ " positional arguments but " ++ toString args.length
                 ++ " were given" }
  else
    .error { kind := "TypeError",
             msg := f.pyName ++ "() missing " ++ toString missing.length
               ++ " required positional argument: "
               ++ String.intercalate ", " (missing.map Param.name) }

/-- TypeAdapter(tp).json_schema() for the parameter types used by this
repository, as pydantic 2.10.6 produces them (verified).  The empty case
is unreachable: function_schema checks for a missing type before building
an adapter.  A RunContext-typed parameter is normally skipped as the
context parameter; were one processed, pydantic would derive a dataclass
schema, abstracted here as an opaque document. -/
def jsonSchemaOf : PyAnnot → Value
  | .empty => Value.null
  | .strT => Value.dict [("type", Value.str "string")]
  | .intT => Value.dict [("type", Value.str "integer")]
  | .boolT => Value.dict [("type", Value.str "boolean")]
  | .optionalInt =>
      Value.dict [("anyOf", Value.list
        [Value.dict [("type", Value.str "integer")],
         Value.dict [("type", Value.str "null")]])]
  | .dictStrAny => Value.dict [("type", Value.str "object")]
  | .runContext => Value.dict [("dataclassSchema", Value.str "RunContext")]
  | .runContextOf a => Value.dict [("dataclassSchema", Value.str ("RunContext-" ++ a))]
  | .runContextSub s => Value.dict [("dataclassSchema", Value.str s)]

/-- The property descriptor derived for one parameter: the open untyped
default for a parameter with no declared type, else the schema of the
declared type. -/
def paramSchema (p : Param) : Value :=
  if p.annot = PyAnnot.empty then Value.dict [("type", Value.str "object")]
  else jsonSchemaOf p.annot

/-- The assembled parameters_json_schema dict literal of function_schema:
its top-level "type" entry (always the JSON-Schema tag "object"), the
insertion-ordered properties dict, and the required list. -/
structure ParamsJsonSchema where
  typeTag : String
  properties : List (String × Value)
  required : List String

/-- The dict returned by function_schema. -/
structure FunctionSchemaInfo where
  parameters_json_schema : ParamsJsonSchema
  description : String
  name : String

/-- tools.py function_schema(function, takes_ctx): skip the first
parameter when takes_ctx; then, in declared order, give each parameter a
property descriptor (the untyped-object default when it has no type) and
list it in required exactly when it has no default value.  The source
builds properties and required in a single loop over the parameters; the
map and filter below produce the same two insertion-ordered lists. -/
def function_schema (f : PyCallable) (takes_ctx : Bool) : FunctionSchemaInfo :=
  let ps := if takes_ctx then f.params.drop 1 else f.params
  { parameters_json_schema :=
      { typeTag := "object",
        properties := ps.map (fun p => (p.name, paramSchema p)),
        required := (ps.filter (fun p => !p.hasDefault)).map Param.name },
    description := f.doc,
    name := f.pyName }

/-- A successfully constructed pydantic validator: validate_python on the
tool argument mapping. -/
structure Validator where
  validate_python : List (String × Value) → Except PyErr (List (String × Value))

/-- Schema-type tags recognised by the pydantic schema walker (the
dispatch table of pydantic._internal._core_utils, pydantic 2.10.6).  The
JSON-Schema tag "object" is not among them. -/
def pydanticCoreSchemaTags : List String :=
  ["any", "none", "bool", "int", "float", "decimal", "str", "bytes",
   "date", "time", "datetime", "timedelta", "literal", "enum",
   "is-instance", "is-subclass", "callable", "list", "tuple", "set",
   "frozenset", "generator", "dict", "function-after", "function-before",
   "function-wrap", "function-plain", "default", "nullable", "union",
   "tagged-union", "chain", "lax-or-strict", "json-or-python",
   "typed-dict", "model-fields", "model", "dataclass-args", "dataclass",
   "arguments", "call", "custom-error", "json", "url", "multi-host-url",
   "definitions", "definition-ref", "uuid"]

/-- pydantic TypeAdapter(obj, config=ConfigDict(arbitrary_types_allowed=True))
for obj a dict instance — the assembled parameters_json_schema, as passed
at tools.py line 96.  pydantic treats a dict argument as an already-built
pydantic-core schema (the isinstance-dict branch of
GenerateSchema._generate_schema_inner) and its schema walker then
dispatches on the "type" tag of that dict; the tag "object" is not in the
dispatch table, so construction raises KeyError naming the tag (verified
on pydantic 2.10.6; str of a KeyError wraps the key in quote marks, left
out of the modelled message).  The success branch is the identity
behavior of an any-schema and is never reached from this repository. -/
def TypeAdapter.ofDictInstance (schema : ParamsJsonSchema) :
    Except PyErr Validator :=
  if pydanticCoreSchemaTags.contains schema.typeTag then
    .ok { validate_python := fun args => .ok args }
  else
    .error { kind := "KeyError", msg := schema.typeTag }

/-- tools.py RunContext: the per-invocation execution context. -/
structure RunContext where
  deps : Value
  usage : Nat
  prompt : String
  tape : Tape
  tool_name : Option String := Option.none
  retry : Nat := 0

/-- tools.py Tool: the fields assigned by a completed __init__. -/
structure Tool where
  function : PyCallable
  takes_ctx : Bool
  max_retries : Nat
  name : String
  description : String
  parameters_json_schema : ParamsJsonSchema
  validator : Validator
  is_async : Bool
  current_retry : Nat

/-- tools.py Tool._infer_takes_ctx: False for a callable with no
parameters; otherwise the first parameter must both carry a type (the
comparison with sig.empty short-circuits the conjunction) and satisfy
issubclass(type, RunContext) — which raises for a subscripted generic
alias. -/
def Tool.inferTakesCtx (function : PyCallable) : Except PyErr Bool :=
  match function.params with
  | [] => .ok false
  | first :: _ =>
      if first.annot = PyAnnot.empty then .ok false
      else PyAnnot.issubclassOfRunContext first.annot

/-- tools.py Tool.__init__(function, takes_ctx, max_retries, name,
description): resolve takes_ctx (inferring it when not supplied, which
may raise), derive the schema, then build the argument validator as
TypeAdapter over the parameters_json_schema dict (which raises), and only
then set is_async and current_retry := 0.  The result is the constructed
Tool or the exception the constructor raises. -/
def Tool.make (function : PyCallable) (takes_ctx : Option Bool)
    (max_retries : Nat) (name : Option String) (description : Option String) :
    Except PyErr Tool :=
  match (match takes_ctx with
         | some b => Except.ok b
         | none => Tool.inferTakesCtx function) with
  | .error e => .error e
  | .ok tc =>
      let schema := function_schema function tc
      match TypeAdapter.ofDictInstance schema.parameters_json_schema with
      | .error e => .error e
      | .ok validator =>
          .ok { function := function, takes_ctx := tc,
                max_retries := max_retries,
                name := name.getD schema.name,
                description := description.getD schema.description,
                parameters_json_schema := schema.parameters_json_schema,
                validator := validator,
                is_async := function.isAsync,
                current_retry := 0 }

/-- Result of one Tool.execute call in the state-passing embedding: the
returned value or raised exception, the tool with its updated
current_retry field, the tape of the context after any appended step, and
the updated count of invocation attempts of the underlying callable. -/
structure ExecResult where
  outcome : Except PyErr Value
  tool : Tool
  tape : Tape
  fnCalls : Nat

/-- tools.py Tool.execute(args, context) as a state transformer.  The try
block validates the argument mapping, prepends the context iff takes_ctx,
extends with the values of the validated mapping in its insertion order,
and invokes the callable (the await and plain branches of the source
perform the same invocation; is_async was set from
iscoroutinefunction(function), so the dispatch matches the callable).  On
success exactly one ACTION step recording args and result under the tool
name is appended and the raw result returned.  On any exception the
except block increments current_retry, re-raises without recording when
the counter now exceeds max_retries, and otherwise appends exactly one
THOUGHT step recording the message and the current/max retry count before
re-raising. -/
def Tool.execute (t : Tool) (args : List (String × Value)) (ctxTape : Tape)
    (fnCalls : Nat) : ExecResult :=
  let attempt : Except PyErr Value :=
    match t.validator.validate_python args with
    | .error e => .error e
    | .ok validated =>
        let call_args := (if t.takes_ctx then [CallArg.ctx] else [])
          ++ validated.map (fun kv => CallArg.val kv.2)
        t.function.call fnCalls call_args
  let fnCalls2 :=
    match t.validator.validate_python args with
    | .error _ => fnCalls
    | .ok _ => fnCalls + 1
  match attempt with
  | .ok result =>
      { outcome := .ok result, tool := t,
        tape := ctxTape.append
          { type := StepType.action,
            content := Value.dict [("args", Value.dict args), ("result", result)],
            metadata := { agent := "agent", node := t.name } },
        fnCalls := fnCalls2 }
  | .error e =>
      let cr := t.current_retry + 1
      let t2 := { t with current_retry := cr }
      if cr > t.max_retries then
        { outcome := .error e, tool := t2, tape := ctxTape, fnCalls := fnCalls2 }
      else
        { outcome := .error e, tool := t2,
          tape := ctxTape.append
            { type := StepType.thought,
              content := Value.str ("Tool execution failed: " ++ e.msg
                ++ ". Retry " ++ toString cr ++ "/" ++ toString t.max_retries),
              metadata := { agent := "agent", node := t.name } },
          fnCalls := fnCalls2 }

/-! ## Concrete callables from the repository and its tests -/

/-- tests/test_tools.py sync_search_tool(ctx: RunContext[str], query: str,
max_results: int = 10). -/
def sync_search_tool : PyCallable :=
  { pyName := "sync_search_tool",
    doc := "Synchronous search tool for testing.",
    params := [{ name := "ctx", annot := PyAnnot.runContextOf "str" },
               { name := "query", annot := PyAnnot.strT },
               { name := "max_results", annot := PyAnnot.intT, hasDefault := true }],
    isAsync := false,
    body := fun _ _ =>
      .ok (Value.dict [("results", Value.list []), ("total_found", Value.int 10)]) }

/-- tests/test_tools.py async_search_tool: same declaration, a coroutine
function. -/
def async_search_tool : PyCallable :=
  { pyName := "async_search_tool",
    doc := "Asynchronous search tool for testing.",
    params := [{ name := "ctx", annot := PyAnnot.runContextOf "str" },
               { name := "query", annot := PyAnnot.strT },
               { name := "max_results", annot := PyAnnot.intT, hasDefault := true }],
    isAsync := true,
    body := fun _ _ =>
      .ok (Value.dict [("results", Value.list []), ("total_found", Value.int 10)]) }

/-- tests/test_tools.py failing_tool of test_tool_retry_mechanism:
raises ValueError on its first two invocations (a closed-over nonlocal
counter), then succeeds. -/
def failing_tool : PyCallable :=
  { pyName := "failing_tool",
    params := [{ name := "ctx", annot := PyAnnot.runContextOf "str" },
               { name := "param", annot := PyAnnot.strT }],
    isAsync := true,
    body := fun prior _ =>
      if prior < 2 then .error { kind := "ValueError", msg := "Temporary error" }
      else .ok (Value.dict [("status", Value.str "success")]) }

/-- tests/test_tools.py error_tool of test_tool_error_recording: always
raises ValueError. -/
def error_tool : PyCallable :=
  { pyName := "error_tool",
    params := [{ name := "ctx", annot := PyAnnot.runContextOf "str" }],
    isAsync := true,
    body := fun _ _ => .error { kind := "ValueError", msg := "Expected error" } }

/-- A context-free search callable, plain_search(query: str, max_results:
int = 10): context inference succeeds on it (False), isolating the
validator-construction step. -/
def plain_search : PyCallable :=
  { pyName := "plain_search",
    params := [{ name := "query", annot := PyAnnot.strT },
               { name := "max_results", annot := PyAnnot.intT, hasDefault := true }],
    isAsync := false,
    body := fun _ _ => .ok (Value.dict [("results", Value.list [])]) }

/-- A callable whose first parameter carries the bare (unsubscripted)
RunContext class: inference succeeds on it (True). -/
def bare_ctx_tool : PyCallable :=
  { pyName := "bare_ctx_tool",
    params := [{ name := "ctx", annot := PyAnnot.runContext },
               { name := "query", annot := PyAnnot.strT }],
    isAsync := false,
    body := fun _ _ => .ok Value.null }

/-- A two-parameter callable a: int, b: int whose body echoes the plain
argument values it receives, in order: used to observe the positional
order in which the pipeline passes the validated arguments. -/
def echo_pair : PyCallable :=
  { pyName := "echo_pair",
    params := [{ name := "a", annot := PyAnnot.intT },
               { name := "b", annot := PyAnnot.intT }],
    isAsync := false,
    body := fun _ args =>
      .ok (Value.list (args.filterMap (fun a =>
        match a with
        | CallArg.val v => some v
        | CallArg.ctx => Option.none))) }

/-- The identity behavior of a pydantic any-schema validator.
Hypothetical: Tool construction raises before any validator exists; this
value lets the execute method body be studied in isolation. -/
def anyValidator : Validator :=
  { validate_python := fun args => .ok args }

/-- A Tool value as a completed __init__ would have produced it, with the
identity validator: hypothetical (no __init__ completes), used to study
the unreachable execute method body. -/
def hypotheticalTool (f : PyCallable) (tc : Bool) (mr : Nat) : Tool :=
  { function := f, takes_ctx := tc, max_retries := mr,
    name := f.pyName, description := f.doc,
    parameters_json_schema := (function_schema f tc).parameters_json_schema,
    validator := anyValidator,
    is_async := f.isAsync,
    current_retry := 0 }

/-! ## agents/base.py: the step dispatcher -/

/-- Modelled from the spec: models/steps.py — imported by agents/base.py
as ..models.steps and defining StepResult (with StepStatus and the agent
side StepType) — is not among the files under src/.  StepResult is the
transient phase outcome of spec section 3, {success, output, error,
metadata}; execute_step stores the exception class name in metadata under
the key exception_type. -/
structure StepResult where
  success : Bool
  output : Option Value := Option.none
  error : Option String := Option.none
  metadata : List (String × String) := []

/-- A step as the dispatcher inspects it: the type tag is the string
value of the str-enum member (both StepType enums are str enums, so the
source equality tests compare these string values; every tape step
carries one of the three known values, and the dispatcher guards all
other strings with its unknown-step-type branch). -/
structure DynStep where
  typeTag : String
  content : Value

/-- The three overridable phases of a concrete agent; each returns a
StepResult or raises. -/
structure AgentPhases where
  think : Value → Except PyErr StepResult
  act : DynStep → Except PyErr StepResult
  observe : DynStep → Except PyErr StepResult

/-- agents/base.py BaseAgent.execute_step: raise ValueError("No active
tape") when no tape is bound — this raise sits before the try block, so
it propagates to the caller (a pydantic Tape object is always truthy, so
the guard tests exactly for None); otherwise dispatch on the step type
inside the try block — thought to think(step.content), action to
act(step), observation to observe(step), any other tag to the
unknown-step-type ValueError — and convert any exception raised inside
the block into StepResult(success=False, error=str(e),
metadata={exception_type: class name}). -/
def BaseAgent.execute_step (current_tape : Option Tape) (ph : AgentPhases)
    (step : DynStep) : Except PyErr StepResult :=
  if current_tape.isNone then
    .error { kind := "ValueError", msg := "No active tape" }
  else
    let tryBlock : Except PyErr StepResult :=
      if step.typeTag = "thought" then ph.think step.content
      else if step.typeTag = "action" then ph.act step
      else if step.typeTag = "observation" then ph.observe step
      else .error { kind := "ValueError",
                    msg := "Unknown step type: " ++ step.typeTag }
    match tryBlock with
    | .ok r => .ok r
    | .error e =>
        .ok { success := false, error := some e.msg,
              metadata := [("exception_type", e.kind)] }

/-- Phases that all succeed, for exercising the dispatcher. -/
def sampleOkPhases : AgentPhases :=
  { think := fun _ => .ok { success := true, output := some (Value.str "a thought") },
    act := fun _ => .ok { success := true, output := some (Value.str "an action") },
    observe := fun _ => .ok { success := true, output := some (Value.str "seen") } }

/-- Phases that all raise, for exercising the exception conversion. -/
def sampleRaisingPhases : AgentPhases :=
  { think := fun _ => .error { kind := "RuntimeError", msg := "LLM unavailable" },
    act := fun _ => .error { kind := "RuntimeError", msg := "tool unavailable" },
    observe := fun _ => .error { kind := "RuntimeError", msg := "sensor unavailable" } }

end LightAgent

namespace LightAgent

/-! ## Theorems: tape model claims -/

theorem Tape.appendAll_steps (t : Tape) (ss : List Step) :
    (t.appendAll ss).steps = t.steps ++ ss := by
  induction ss generalizing t with
  | nil => simp [Tape.appendAll]
  | cons s rest ih =>
      simp [Tape.appendAll] at ih ⊢
      rw [ih]
      simp [Tape.append]

/-- C8: every sequence of append calls leaves exactly the appended steps,
in call order, after the original contents: no reordering, no drops, no
removal; a single append adds exactly one step at the end (append is a
total function, so it has no failure mode). -/
theorem c8_append_order (t : Tape) (ss : List Step) :
    (t.appendAll ss).steps = t.steps ++ ss
      ∧ (∀ s : Step, (t.append s).steps = t.steps ++ [s])
      ∧ (∀ s : Step, (t.append s).steps.length = t.steps.length + 1) := by
  refine ⟨Tape.appendAll_steps t ss, fun s => rfl, fun s => ?_⟩
  simp [Tape.append]

/-- C6: clone yields a child whose parent_id is the source tape_id, whose
author is inherited, whose tape_id is newly generated (hence distinct
from the source tape_id, given the uuid-supply invariant that every
previously issued id is below the counter), and whose step list is a
snapshot equal to the source step list at the moment of cloning; clone
does not modify the source tape (it is a pure read of it in this
embedding, mirroring steps.copy()), and later appends to the child
produce child tapes whose extra steps sit after the snapshot, never
changing the source step count, which stays t.steps.length. -/
theorem c6_clone_lineage (t : Tape) (g : UuidGen)
    (hfresh : t.metadata.tape_id < g.counter) :
    ((t.clone g).1.metadata.parent_id = some t.metadata.tape_id)
      ∧ ((t.clone g).1.metadata.author = t.metadata.author)
      ∧ ((t.clone g).1.metadata.tape_id = g.counter
          ∧ (t.clone g).1.metadata.tape_id ≠ t.metadata.tape_id)
      ∧ ((t.clone g).1.steps.length = t.steps.length)
      ∧ ((t.clone g).1.steps = t.steps)
      ∧ (∀ ss : List Step,
          ((t.clone g).1.appendAll ss).steps = t.steps ++ ss) := by
  refine ⟨rfl, rfl, ⟨rfl, ?_⟩, rfl, rfl, fun ss => ?_⟩
  · simp only [Tape.clone, UuidGen.next]
    exact fun h => absurd (h ▸ hfresh) (lt_irrefl _)
  · rw [Tape.appendAll_steps]
    rfl

/-- Witness for C6 at a concrete tape and supply. -/
theorem c6_clone_lineage_witness :
    (({ steps := [{ type := StepType.thought, content := Value.str "t",
                    metadata := { agent := "a", node := "n" } }],
        metadata := { author := "root", tape_id := 3 } } : Tape).clone
          ⟨7⟩).1.metadata.parent_id = some 3 := by
  have h := c6_clone_lineage
    { steps := [{ type := StepType.thought, content := Value.str "t",
                  metadata := { agent := "a", node := "n" } }],
      metadata := { author := "root", tape_id := 3 } }
    ⟨7⟩ (by decide)
  exact h.1

/-! ## Theorems: tool pipeline claims -/

theorem typeAdapter_rejects_object_tag (f : PyCallable) (tc : Bool) :
    TypeAdapter.ofDictInstance (function_schema f tc).parameters_json_schema
      = Except.error { kind := "KeyError", msg := "object" } := rfl

/-- C10: no Tool instance ever exists — for every callable and every
combination of constructor arguments, Tool.__init__ raises (a TypeError
from issubclass during context inference, or the KeyError from building
the argument validator over the parameters_json_schema dict), always
before the line current_retry = 0 is reached; hence no current_retry
counter, and none of the claimed lifetime-counter behavior, is ever
observable. -/
theorem c10_no_tool_instance_exists (f : PyCallable) (tcOpt : Option Bool)
    (mr : Nat) (nm ds : Option String) :
    ∃ e : PyErr, Tool.make f tcOpt mr nm ds = Except.error e := by
  unfold Tool.make
  cases htc : (match tcOpt with
               | some b => Except.ok b
               | none => Tool.inferTakesCtx f) with
  | error e => exact ⟨e, rfl⟩
  | ok b => exact ⟨{ kind := "KeyError", msg := "object" }, rfl⟩

/-- C1 (failing input): the always-failing scenario of the claim — the
error_tool of tests/test_tools.py test_tool_error_recording with
max_retries=1 — cannot even be set up: Tool construction raises TypeError
from issubclass on the RunContext[str] first-parameter annotated type, so
no failing invocation, no retry-counter increment and no THOUGHT step
ever happens. -/
theorem c1_always_failing_scenario_unconstructible :
    Tool.make error_tool Option.none 1 Option.none Option.none
      = Except.error { kind := "TypeError",
                       msg := "issubclass() arg 1 must be a class" } := rfl

/-- C2 (failing input): the fail-fail-succeed scenario of the claim — the
flaky callable of tests/test_tools.py test_tool_retry_mechanism with
max_retries=3 — cannot be set up: Tool construction raises TypeError, so
no ACTION step recording args and result is ever appended and no success
result is ever returned. -/
theorem c2_retry_success_scenario_unconstructible :
    Tool.make failing_tool Option.none 3 Option.none Option.none
      = Except.error { kind := "TypeError",
                       msg := "issubclass() arg 1 must be a class" } := rfl

/-- C3 (failing input): the missing-required-argument scenario — the tool
of tests/test_tools.py test_tool_validation_error — cannot be invoked:
constructing Tool(sync_search_tool) raises TypeError during context
inference, and even for a callable that passes inference (plain_search),
construction of the argument validator itself raises KeyError; no
ValidationError naming a missing field can ever be produced. -/
theorem c3_validation_layer_unconstructible :
    Tool.make sync_search_tool Option.none 3 Option.none Option.none
        = Except.error { kind := "TypeError",
                         msg := "issubclass() arg 1 must be a class" }
      ∧ Tool.make plain_search Option.none 3 Option.none Option.none
        = Except.error { kind := "KeyError", msg := "object" } :=
  ⟨rfl, rfl⟩

/-- C4 (failing input): the synchronous and asynchronous dispatch
scenarios of tests/test_tools.py — sync_search_tool and
async_search_tool — both fail at Tool construction with TypeError, so no
invocation dispatch (context prepending, argument ordering, sync/async
selection) is ever performed. -/
theorem c4_dispatch_scenarios_unconstructible :
    Tool.make sync_search_tool Option.none 3 Option.none Option.none
        = Except.error { kind := "TypeError",
                         msg := "issubclass() arg 1 must be a class" }
      ∧ Tool.make async_search_tool Option.none 3 Option.none Option.none
        = Except.error { kind := "TypeError",
                         msg := "issubclass() arg 1 must be a class" } :=
  ⟨rfl, rfl⟩

/-- C9 (failing input): on a first parameter annotated with the
parameterized RunContext[str] — as every context-taking callable of this
repository and its tests is annotated — _infer_takes_ctx raises TypeError
(issubclass rejects a subscripted generic alias), so Tool construction
fails rather than succeeding with takes_ctx=True; inference does return
False for a non-RunContext first parameter and True for a bare
RunContext class, but even then construction fails at the validator. -/
theorem c9_context_inference_crashes :
    Tool.inferTakesCtx sync_search_tool
        = Except.error { kind := "TypeError",
                         msg := "issubclass() arg 1 must be a class" }
      ∧ Tool.make sync_search_tool Option.none 3 Option.none Option.none
        = Except.error { kind := "TypeError",
                         msg := "issubclass() arg 1 must be a class" }
      ∧ Tool.inferTakesCtx plain_search = Except.ok false
      ∧ Tool.inferTakesCtx bare_ctx_tool = Except.ok true
      ∧ Tool.make bare_ctx_tool Option.none 3 Option.none Option.none
        = Except.error { kind := "KeyError", msg := "object" } :=
  ⟨rfl, rfl, rfl, rfl, rfl⟩

/-- C5: function_schema assembles the {type: object, properties, required}
document: the context parameter is skipped iff takes_ctx; every remaining
parameter receives a property descriptor derived from its declared type —
the untyped-object default when it declares none; a name is listed in
required exactly when a remaining parameter of that name has no default
value; zero remaining parameters yield empty properties and required.
Concretely, the query/max_results search declaration marks exactly query
as required with max_results omitted from required, and the context-only
error_tool yields empty properties and required. -/
theorem c5_function_schema_derivation (f : PyCallable) (tc : Bool) :
    ((function_schema f tc).parameters_json_schema.typeTag = "object")
      ∧ (∀ p : Param, p ∈ (if tc then f.params.drop 1 else f.params) →
          (p.name, paramSchema p)
            ∈ (function_schema f tc).parameters_json_schema.properties)
      ∧ (∀ p : Param, p ∈ (if tc then f.params.drop 1 else f.params) →
          p.annot = PyAnnot.empty →
          (p.name, Value.dict [("type", Value.str "object")])
            ∈ (function_schema f tc).parameters_json_schema.properties)
      ∧ (∀ nm : String,
          nm ∈ (function_schema f tc).parameters_json_schema.required
            ↔ ∃ p : Param, p ∈ (if tc then f.params.drop 1 else f.params)
                ∧ p.hasDefault = false ∧ p.name = nm)
      ∧ ((if tc then f.params.drop 1 else f.params) = [] →
          (function_schema f tc).parameters_json_schema.properties = []
            ∧ (function_schema f tc).parameters_json_schema.required = [])
      ∧ ((function_schema sync_search_tool true).parameters_json_schema.required
          = ["query"])
      ∧ ((function_schema sync_search_tool true).parameters_json_schema.properties
          = [("query", Value.dict [("type", Value.str "string")]),
             ("max_results", Value.dict [("type", Value.str "integer")])])
      ∧ ((function_schema error_tool true).parameters_json_schema.properties = []
          ∧ (function_schema error_tool true).parameters_json_schema.required = []) := by
  refine ⟨rfl, ?_, ?_, ?_, ?_, rfl, rfl, rfl, rfl⟩
  · intro p hp
    simp only [function_schema, List.mem_map]
    exact ⟨p, hp, rfl⟩
  · intro p hp he
    have hs : paramSchema p = Value.dict [("type", Value.str "object")] := by
      simp [paramSchema, he]
    simp only [function_schema, List.mem_map]
    exact ⟨p, hp, by rw [hs]⟩
  · intro nm
    simp only [function_schema, List.mem_map, List.mem_filter, Bool.not_eq_true']
    constructor
    · rintro ⟨p, ⟨hp, hd⟩, hn⟩
      exact ⟨p, hp, hd, hn⟩
    · rintro ⟨p, hp, hd, hn⟩
      exact ⟨p, ⟨hp, hd⟩, hn⟩
  · intro h
    have h2 : (if tc then f.params.tail else f.params) = [] := by
      simpa [List.drop_one] using h
    constructor
    · simp [function_schema, List.drop_one, h2]
    · simp [function_schema, List.drop_one, h2]

/-- Witness for C5 at the search-tool declaration. -/
theorem c5_function_schema_derivation_witness :
    ("query", Value.dict [("type", Value.str "string")])
        ∈ (function_schema sync_search_tool true).parameters_json_schema.properties
      ∧ "query" ∈ (function_schema sync_search_tool true).parameters_json_schema.required := by
  constructor
  · exact (c5_function_schema_derivation sync_search_tool true).2.1
      { name := "query", annot := PyAnnot.strT } (by decide)
  · exact ((c5_function_schema_derivation sync_search_tool true).2.2.2.1 "query").mpr
      ⟨{ name := "query", annot := PyAnnot.strT }, by decide, rfl, rfl⟩

/-- The except-block dynamics of the execute method body — unreachable
code, studied over an arbitrary Tool value: a failing attempt re-raises
the exception, increments current_retry by exactly one, appends exactly
one THOUGHT step recording the error message and the current/max retry
count when the new counter is within max_retries and appends nothing once
the counter exceeds it, and never appends an ACTION step. -/
theorem execute_body_failure_dynamics (t : Tool) (args : List (String × Value))
    (tape : Tape) (n : Nat) (e : PyErr)
    (hval : t.validator.validate_python args = Except.ok args)
    (hcall : t.function.call n ((if t.takes_ctx then [CallArg.ctx] else [])
        ++ args.map (fun kv => CallArg.val kv.2)) = Except.error e) :
    (t.execute args tape n).outcome = Except.error e
      ∧ (t.execute args tape n).tool.current_retry = t.current_retry + 1
      ∧ (t.execute args tape n).tape.steps
          = (if t.current_retry + 1 > t.max_retries then tape.steps
             else tape.steps ++
               [{ type := StepType.thought,
                  content := Value.str ("Tool execution failed: " ++ e.msg
                    ++ ". Retry " ++ toString (t.current_retry + 1) ++ "/"
                    ++ toString t.max_retries),
                  metadata := { agent := "agent", node := t.name } }]) := by
  simp only [Tool.execute, hval, hcall]
  by_cases hb : t.current_retry + 1 > t.max_retries
  · simp [hb]
  · simp [hb, Tape.append]

/-- The success dynamics of the execute method body — unreachable code:
a successful attempt returns the raw result, leaves the tool (hence
current_retry) unchanged, and appends exactly one ACTION step recording
the supplied args and the result under the tool name. -/
theorem execute_body_success_dynamics (t : Tool) (args : List (String × Value))
    (tape : Tape) (n : Nat) (v : Value)
    (hval : t.validator.validate_python args = Except.ok args)
    (hcall : t.function.call n ((if t.takes_ctx then [CallArg.ctx] else [])
        ++ args.map (fun kv => CallArg.val kv.2)) = Except.ok v) :
    (t.execute args tape n).outcome = Except.ok v
      ∧ (t.execute args tape n).tool = t
      ∧ (t.execute args tape n).tape.steps
          = tape.steps ++
            [{ type := StepType.action,
               content := Value.dict [("args", Value.dict args), ("result", v)],
               metadata := { agent := "agent", node := t.name } }] := by
  simp only [Tool.execute, hval, hcall]
  simp [Tape.append]

/-- The execute method body run three times on the fail-fail-succeed
callable of test_tool_retry_mechanism, with the identity validator a
completed construction would have needed: the first two calls each record
one THOUGHT failure step and re-raise, the third returns the success
result and records one ACTION step, leaving the tape
[THOUGHT, THOUGHT, ACTION] and current_retry at 2. -/
theorem execute_body_flaky_scenario :
    (let t0 := hypotheticalTool failing_tool true 3
     let a := [("param", Value.str "test")]
     let r1 := t0.execute a { } 0
     let r2 := r1.tool.execute a r1.tape r1.fnCalls
     let r3 := r2.tool.execute a r2.tape r2.fnCalls
     r3.outcome = Except.ok (Value.dict [("status", Value.str "success")])
       ∧ r3.tape.steps.map Step.type
           = [StepType.thought, StepType.thought, StepType.action]
       ∧ r3.tool.current_retry = 2
       ∧ r1.outcome = Except.error { kind := "ValueError", msg := "Temporary error" }
       ∧ r1.tape.steps.map Step.type = [StepType.thought]) := by
  exact ⟨rfl, rfl, rfl, rfl, rfl⟩

/-- The execute method body passes the validated argument values
positionally in the iteration order of the supplied mapping, not in the
declared parameter order: for echo_pair(a: int, b: int), supplying the
mapping with b first makes the callable receive the values (2, 1). -/
theorem execute_body_mapping_order :
    ((hypotheticalTool echo_pair false 3).execute
        [("b", Value.int 2), ("a", Value.int 1)] { } 0).outcome
      = Except.ok (Value.list [Value.int 2, Value.int 1]) := rfl

/-! ## Theorems: agent dispatcher claims -/

/-- C7: execute_step with no bound tape raises the usage-error ValueError
(a propagated exception, distinct in kind from the caught-and-converted
phase failures, which come back as ok results); with a tape bound it
dispatches the thought, action and observation tags to think, act and
observe respectively, returns their successful results unchanged,
converts any exception a phase raises into StepResult(success=false,
error=str(e), metadata={exception_type: class}), and surfaces the
unknown-step-type condition the same converted way instead of propagating
it. -/
theorem c7_execute_step_dispatch (ph : AgentPhases) (step : DynStep) (t : Tape) :
    (BaseAgent.execute_step Option.none ph step
        = Except.error { kind := "ValueError", msg := "No active tape" })
      ∧ (∀ r, step.typeTag = "thought" → ph.think step.content = Except.ok r →
          BaseAgent.execute_step (some t) ph step = Except.ok r)
      ∧ (∀ e, step.typeTag = "thought" → ph.think step.content = Except.error e →
          BaseAgent.execute_step (some t) ph step
            = Except.ok { success := false, error := some e.msg,
                          metadata := [("exception_type", e.kind)] })
      ∧ (∀ r, step.typeTag = "action" → ph.act step = Except.ok r →
          BaseAgent.execute_step (some t) ph step = Except.ok r)
      ∧ (∀ e, step.typeTag = "action" → ph.act step = Except.error e →
          BaseAgent.execute_step (some t) ph step
            = Except.ok { success := false, error := some e.msg,
                          metadata := [("exception_type", e.kind)] })
      ∧ (∀ r, step.typeTag = "observation" → ph.observe step = Except.ok r →
          BaseAgent.execute_step (some t) ph step = Except.ok r)
      ∧ (∀ e, step.typeTag = "observation" → ph.observe step = Except.error e →
          BaseAgent.execute_step (some t) ph step
            = Except.ok { success := false, error := some e.msg,
                          metadata := [("exception_type", e.kind)] })
      ∧ (step.typeTag ≠ "thought" → step.typeTag ≠ "action" →
          step.typeTag ≠ "observation" →
          BaseAgent.execute_step (some t) ph step
            = Except.ok { success := false,
                          error := some ("Unknown step type: " ++ step.typeTag),
                          metadata := [("exception_type", "ValueError")] }) := by
  refine ⟨rfl, ?_, ?_, ?_, ?_, ?_, ?_, ?_⟩
  · intro r htag hr
    simp [BaseAgent.execute_step, htag, hr]
  · intro e htag he
    simp [BaseAgent.execute_step, htag, he]
  · intro r htag hr
    simp [BaseAgent.execute_step, htag, hr]
  · intro e htag he
    simp [BaseAgent.execute_step, htag, he]
  · intro r htag hr
    simp [BaseAgent.execute_step, htag, hr]
  · intro e htag he
    simp [BaseAgent.execute_step, htag, he]
  · intro h1 h2 h3
    simp [BaseAgent.execute_step, h1, h2, h3]

/-- Witness for C7 exercising all four outcome shapes at concrete inputs. -/
theorem c7_execute_step_dispatch_witness :
    BaseAgent.execute_step Option.none sampleOkPhases
        { typeTag := "thought", content := Value.null }
        = Except.error { kind := "ValueError", msg := "No active tape" }
      ∧ BaseAgent.execute_step (some { }) sampleOkPhases
          { typeTag := "thought", content := Value.null }
          = Except.ok { success := true, output := some (Value.str "a thought") }
      ∧ BaseAgent.execute_step (some { }) sampleRaisingPhases
          { typeTag := "action", content := Value.null }
          = Except.ok { success := false, error := some "tool unavailable",
                        metadata := [("exception_type", "RuntimeError")] }
      ∧ BaseAgent.execute_step (some { }) sampleOkPhases
          { typeTag := "finish", content := Value.null }
          = Except.ok { success := false,
                        error := some ("Unknown step type: " ++ "finish"),
                        metadata := [("exception_type", "ValueError")] } := by
  refine ⟨?_, ?_, ?_, ?_⟩
  · exact (c7_execute_step_dispatch sampleOkPhases
      { typeTag := "thought", content := Value.null } { }).1
  · exact (c7_execute_step_dispatch sampleOkPhases
      { typeTag := "thought", content := Value.null } { }).2.1 _ rfl rfl
  · exact (c7_execute_step_dispatch sampleRaisingPhases
      { typeTag := "action", content := Value.null } { }).2.2.2.2.1 _ rfl rfl
  · exact (c7_execute_step_dispatch sampleOkPhases
      { typeTag := "finish", content := Value.null } { }).2.2.2.2.2.2.2
      (by decide) (by decide) (by decide)

end LightAgent
